import Mathlib

/-!
Verification development for the Trade-Alerts repository.

The Python sources are shallowly embedded: machine floats become `ℚ`,
Python dictionaries become records of optional fields, fallible code
returns `Option`/`Except`, and the network/clock boundaries
(`_get_frankfurter_rate`, the Pushover notifier, `datetime.now`) become
explicit function parameters.  Python truthiness (`if x:`) is modelled
by dedicated `truthy` helpers: `None`, `0.0` and `""` are falsy.
-/

set_option autoImplicit false

namespace TradeAlerts

/-! ## Python-semantics helpers -/

/-- Truthiness of an optional Python float value: `None` and `0.0` are falsy. -/
def truthyQ : Option ℚ → Bool
  | none => false
  | some q => q != 0

/-- Truthiness of an optional Python string value: `None` and `""` are falsy. -/
def truthyS : Option String → Bool
  | none => false
  | some s => s != ""

/-- Python `a or b` on optional float values (`a` wins iff it is truthy). -/
def pyOrQ (a b : Option ℚ) : Option ℚ :=
  if truthyQ a then a else b

/-- Python `a or b` on optional string values (`a` wins iff it is truthy). -/
def pyOrS (a b : Option String) : Option String :=
  if truthyS a then a else b

/-! ## ASCII character helpers (model of `re` with `IGNORECASE` over ASCII text) -/

/-- Lower-case an ASCII code point. -/
def lowerN (n : Nat) : Nat :=
  if 65 ≤ n ∧ n ≤ 90 then n + 32 else n

/-- Case-insensitive ASCII character equality. -/
def eqCI (a b : Char) : Bool :=
  lowerN a.toNat == lowerN b.toNat

/-- Upper-case an ASCII character (model of `str.upper` on ASCII input). -/
def upperCh (c : Char) : Char :=
  if 97 ≤ c.toNat ∧ c.toNat ≤ 122 then Char.ofNat (c.toNat - 32) else c

/-- Upper-case an ASCII string. -/
def upperStr (s : String) : String :=
  String.mk (s.data.map upperCh)

/-- `[0-9]`. -/
def isDigitCh (c : Char) : Bool :=
  48 ≤ c.toNat && c.toNat ≤ 57

/-- Python `\s` restricted to ASCII: space, `\t`, `\n`, `\r`, `\f`, `\v`. -/
def isWS (c : Char) : Bool :=
  c == ' ' || c == '\t' || c == '\n' || c == '\r' || c.toNat == 12 || c.toNat == 11

/-- The character class `[:\s]`. -/
def isColonWS (c : Char) : Bool :=
  c == ':' || isWS c

/-- The character class `[-\s]`. -/
def isDashWS (c : Char) : Bool :=
  c == '-' || isWS c

/-- ASCII letter (what `[A-Z]` matches under `IGNORECASE`). -/
def isAlphaCh (c : Char) : Bool :=
  (65 ≤ c.toNat && c.toNat ≤ 90) || (97 ≤ c.toNat && c.toNat ≤ 122)

/-- Python `\w` restricted to ASCII: letters, digits, underscore. -/
def isWordCh (c : Char) : Bool :=
  isAlphaCh c || isDigitCh c || c == '_'

/-- Python `str.split` with a one-character separator (used for
`pair.split('/')`): splitting `""` gives `[""]`, separators at the ends
give empty fields. -/
def splitOnChar (sep : Char) : List Char → List (List Char)
  | [] => [[]]
  | c :: cs =>
    let r := splitOnChar sep cs
    if c = sep then [] :: r
    else
      match r with
      | h :: t => (c :: h) :: t
      | [] => [[c]]

/-- `pair.split('/')` as a list of strings. -/
def pySplitSlash (s : String) : List String :=
  (splitOnChar '/' s.data).map String.mk

/-- Case-insensitive "text starts with pattern" on character lists. -/
def startsWithCI : List Char → List Char → Bool
  | [], _ => true
  | _ :: _, [] => false
  | p :: ps, c :: cs => eqCI p c && startsWithCI ps cs

/-- Length of the maximal prefix run of characters satisfying `p`. -/
def takeRun (p : Char → Bool) : List Char → Nat
  | [] => 0
  | c :: cs => if p c then takeRun p cs + 1 else 0

/-- Substring containment on character lists (model of Python `in` on strings). -/
def containsSub (pat : List Char) : List Char → Bool
  | [] => pat.isEmpty
  | c :: cs => pat.isPrefixOf (c :: cs) || containsSub pat cs

/-! ## Opportunity records

Model of the dictionaries built by `RecommendationParser`
(`src/recommendation_parser.py` lines 99-108 and 182-191). -/

structure Opportunity where
  pair : String
  entry : ℚ
  exit : Option ℚ
  stop_loss : Option ℚ
  direction : String
  position_size : Option String
  recommendation : String
  source : String
  deriving DecidableEq, Repr

/-! ## PriceMonitor (`src/price_monitor.py`)

`_get_frankfurter_rate` is a network call (always invoked with base
`'EUR'`); it is modelled by a parameter `feed : String → Option ℚ`
mapping the quote currency to the fetched rate (`none` = fetch failed
or rate missing from the response). -/

/-- The branch logic of `PriceMonitor.get_rate` on the two legs
(lines 40-52): a direct rate when `base` is the pivot, an inverted rate
when `quote` is, otherwise the cross rate; `rate if rate else None` and
`if rate_base and rate_quote` treat a `0.0` rate as absent. -/
def get_rate_core (feed : String → Option ℚ) (base quote : String) : Option ℚ :=
  if base = "EUR" then
    match feed quote with
    | some r => if r ≠ 0 then some r else none
    | none => none
  else if quote = "EUR" then
    match feed base with
    | some r => if r ≠ 0 then some (1 / r) else none
    | none => none
  else
    match feed base, feed quote with
    | some rb, some rq =>
      if rb ≠ 0 ∧ rq ≠ 0 then some (rq / rb) else none
    | _, _ => none

/-- `PriceMonitor.get_rate` (lines 24-55).  `pair.split('/')` must yield
exactly two legs, otherwise the unpacking `ValueError` is caught (lines
53-55) and the result is `None`. -/
def get_rate (feed : String → Option ℚ) (pair : String) : Option ℚ :=
  match pySplitSlash pair with
  | [base, quote] => get_rate_core feed base quote
  | _ => none

/-- The body of `PriceMonitor.check_entry_point` (lines 102-127) applied to
the already-fetched `current_price`: the guard `if not current_price:
return False` (lines 102-104), the two-tier pip convention, the tolerance
and the directional comparison. -/
def entryHitDecision (current_price : Option ℚ) (pair : String) (entry_price : ℚ)
    (direction : String) (tolerance_pips : ℚ) (tolerance_percent : ℚ) : Bool :=
  match current_price with
  | none => false
  | some c =>
    if c = 0 then false
    else
      let pip_value : ℚ := if containsSub "JPY".data pair.data then 1/100 else 1/10000
      let tolerance_absolute := max (tolerance_pips * pip_value)
        (entry_price * (tolerance_percent / 100))
      if direction = "BUY" then
        decide (c ≤ entry_price + tolerance_absolute)
      else
        decide (entry_price - tolerance_absolute ≤ c)

/-- `PriceMonitor.check_entry_point` (lines 87-127): fetch the current
rate with `get_rate`, then decide the tolerance-banded hit condition.
Defaults in the source: `tolerance_pips = 10`, `tolerance_percent = 0.1`. -/
def check_entry_point (feed : String → Option ℚ) (pair : String) (entry_price : ℚ)
    (direction : String) (tolerance_pips : ℚ := 10) (tolerance_percent : ℚ := 1/10) : Bool :=
  entryHitDecision (get_rate feed pair) pair entry_price direction tolerance_pips tolerance_percent

/-! ## AlertHistory (`src/alert_history.py`)

The ledger state carries both the in-memory `history` list and the
persisted file contents (`none` = file missing or corrupt; loading such
a file yields an empty history, lines 29-37). -/

/-- `q * 10^5` rounded to the nearest integer, ties to even — the
rounding performed by Python `format(x, '.5f')`.  Computed on the
numerator and denominator by integer arithmetic: `f = ⌊q⌋` via floor
division, and the fractional remainder compared with `1/2` by
cross-multiplication. -/
def round5HalfEven (q : ℚ) : ℤ :=
  let n := q.num * 100000
  let d : ℤ := (q.den : ℤ)
  let f := Int.fdiv n d
  let r2 := 2 * (n - d * f)
  if r2 < d then f
  else if d < r2 then f + 1
  else if f % 2 = 0 then f else f + 1

/-- Left-pad a string with zeros to length `k`. -/
def padZeros (s : String) (k : Nat) : String :=
  if s.length < k then String.mk (List.replicate (k - s.length) '0') ++ s else s

/-- Python `f"{q:.5f}"`: the value rounded (half-to-even) at five
fractional digits; a leading minus sign appears exactly when the
formatted value is negative. -/
def format5 (q : ℚ) : String :=
  let n := round5HalfEven q
  let m := n.natAbs
  let sign := if q < 0 then "-" else ""
  sign ++ toString (m / 100000) ++ "." ++ padZeros (toString (m % 100000)) 5

/-- `AlertHistory._create_alert_key` (lines 47-52):
`f"{pair}_{direction}_{entry:.5f}"`. -/
def create_alert_key (o : Opportunity) : String :=
  o.pair ++ "_" ++ o.direction ++ "_" ++ format5 o.entry

/-- One row of the persisted alert ledger (lines 82-90). -/
structure AlertEntry where
  key : String
  pair : String
  entry : ℚ
  direction : String
  current_price : ℚ
  sent_at : String
  sent : Bool
  deriving DecidableEq, Repr

/-- In-memory ledger plus the persisted file contents. -/
structure AlertHistoryState where
  history : List AlertEntry
  file : Option (List AlertEntry)
  deriving DecidableEq, Repr

/-- `AlertHistory._load_history` (lines 29-37): a missing or corrupt
file yields an empty history. -/
def load_history (file : Option (List AlertEntry)) : List AlertEntry :=
  file.getD []

/-- `AlertHistory.__init__` (lines 14-27): load the history from the file. -/
def loadState (file : Option (List AlertEntry)) : AlertHistoryState :=
  { history := load_history file, file := file }

/-- `AlertHistory.has_alerted` (lines 54-70): true iff some history row
has the opportunity's derived key and a truthy `sent` flag. -/
def has_alerted (history : List AlertEntry) (o : Opportunity) : Bool :=
  history.any (fun e => e.key == create_alert_key o && e.sent)

/-- `AlertHistory.record_alert` (lines 72-94): append a `sent := true`
row and persist the whole history (`_save_history`, lines 39-45). -/
def record_alert (s : AlertHistoryState) (o : Opportunity) (current_price : ℚ)
    (now : String) : AlertHistoryState :=
  let e : AlertEntry :=
    { key := create_alert_key o
      pair := o.pair
      entry := o.entry
      direction := o.direction
      current_price := current_price
      sent_at := now
      sent := true }
  let h := s.history ++ [e]
  { history := h, file := some h }

/-! ## RecommendationParser (`src/recommendation_parser.py`)

The `re` patterns of the source are modelled by hand-rolled matchers on
`List Char` with Python regex semantics (leftmost search, greedy
quantifier backtracking, `IGNORECASE`, `DOTALL` where flagged).  Every
quantifier in the source patterns ranges over a single character class,
so greedy matching is implemented by maximal runs, with explicit
backtracking where a following token could overlap the class. -/

/-- The fixed catalog of recognized pairs (lines 15-20). -/
def currency_pairs : List String :=
  ["EUR/USD", "GBP/USD", "USD/JPY", "USD/CHF", "AUD/USD", "USD/CAD",
   "NZD/USD", "EUR/GBP", "EUR/JPY", "GBP/JPY", "AUD/JPY", "EUR/AUD",
   "EUR/CAD", "GBP/AUD", "GBP/CAD", "AUD/NZD", "CAD/CHF", "EUR/CHF",
   "GBP/CHF", "AUD/CHF", "NZD/CHF", "CAD/JPY", "CHF/JPY", "NZD/JPY"]

/-- `RecommendationParser._normalize_pair` (lines 197-215): strip
spaces, turn underscores into slashes, upper-case; insert a slash into a
bare six-letter code; then exact membership, else slash-stripped
comparison against each canonical pair (first match wins). -/
def normalize_pair (raw : String) : Option String :=
  let cs := ((raw.data.filter (fun c => c ≠ ' ')).map
    (fun c => if c = '_' then '/' else c)).map upperCh
  let cs2 := if ¬ cs.contains '/' ∧ cs.length = 6
    then cs.take 3 ++ '/' :: cs.drop 3 else cs
  let s := String.mk cs2
  if currency_pairs.contains s then some s
  else currency_pairs.find? (fun kp =>
    kp.data.filter (fun c => c ≠ '/') = cs2.filter (fun c => c ≠ '/'))

/-- The capture `([0-9]+\.?[0-9]*)` at the current position: the
captured characters and the rest of the text.  (Greedy throughout; a
shorter capture always ends just before a digit or a dot, so no
backtracking into the group can help a failing continuation.) -/
def matchNumber (s : List Char) : Option (List Char × List Char) :=
  let k := takeRun isDigitCh s
  if k = 0 then none
  else
    let ds := s.take k
    let rest := s.drop k
    match rest with
    | '.' :: rest2 =>
      let k2 := takeRun isDigitCh rest2
      some (ds ++ '.' :: rest2.take k2, rest2.drop k2)
    | _ => some (ds, rest)

/-- Decimal digits to a natural number. -/
def digitsToNatAux (acc : Nat) : List Char → Nat
  | [] => acc
  | c :: cs => digitsToNatAux (acc * 10 + (c.toNat - 48)) cs

/-- Python `float` on a string matched by `[0-9]+\.?[0-9]*`, idealized
as the exact rational `intpart + frac / 10 ^ |frac|`. -/
def parseFloatQ (g : List Char) : ℚ :=
  let intPart := g.takeWhile isDigitCh
  let frac := match g.dropWhile isDigitCh with
    | '.' :: fs => fs
    | _ => []
  mkRat (digitsToNatAux 0 intPart * 10 ^ frac.length + digitsToNatAux 0 frac)
    (10 ^ frac.length)

/-- `KW[:\s]+([0-9]+\.?[0-9]*)` at the current position.  The greedy
`[:\s]+` is the maximal run: a digit is not in the class, so no shorter
run can make the capture succeed. -/
def matchKwNum (kw : List Char) (s : List Char) : Option (List Char) :=
  if startsWithCI kw s then
    let r := s.drop kw.length
    let k := takeRun isColonWS r
    if k = 0 then none else (matchNumber (r.drop k)).map Prod.fst
  else none

/-- `(?:at|@)?\s*([0-9]+\.?[0-9]*)` at the current position, trying the
alternatives in source order: `at`, `@`, absent. -/
def matchAtNum (t : List Char) : Option (List Char) :=
  let plain (t2 : List Char) : Option (List Char) :=
    (matchNumber (t2.drop (takeRun isWS t2))).map Prod.fst
  match (if startsWithCI ['a', 't'] t then plain (t.drop 2) else none) with
  | some g => some g
  | none =>
    match (match t with
           | '@' :: t2 => plain t2
           | _ => none) with
    | some g => some g
    | none => plain t

/-- Backtracking over the `[:\s]+` run length, longest first, resuming
with `(?:at|@)?\s*(number)`. -/
def tryRunsAtNum (r : List Char) : Nat → Option (List Char)
  | 0 => none
  | k + 1 =>
    match matchAtNum (r.drop (k + 1)) with
    | some g => some g
    | none => tryRunsAtNum r k

/-- `KW[:\s]+(?:at|@)?\s*([0-9]+\.?[0-9]*)` at the current position
(the `enter`/`buy`/`sell` entry patterns, lines 120-122). -/
def matchKwAtNum (kw : List Char) (s : List Char) : Option (List Char) :=
  if startsWithCI kw s then
    let r := s.drop kw.length
    tryRunsAtNum r (takeRun isColonWS r)
  else none

/-- `entry\s+price[:\s]+([0-9]+\.?[0-9]*)` at the current position
(line 123; the `p` of `price` is not in `\s`, so the maximal run is
faithful). -/
def matchEntryPriceNum (s : List Char) : Option (List Char) :=
  if startsWithCI "entry".data s then
    let r := s.drop 5
    let k := takeRun isWS r
    if k = 0 then none else matchKwNum "price".data (r.drop k)
  else none

/-- `[-\s]?` (greedy optional) followed by the continuation `k`. -/
def optDashWS (k : List Char → Option (List Char)) (r : List Char) : Option (List Char) :=
  match r with
  | [] => k []
  | c :: rest =>
    if isDashWS c then
      match k rest with
      | some g => some g
      | none => k (c :: rest)
    else k (c :: rest)

/-- `take[-\s]?profit[:\s]+(number)` (line 137). -/
def matchTakeProfitNum (s : List Char) : Option (List Char) :=
  if startsWithCI "take".data s then optDashWS (matchKwNum "profit".data) (s.drop 4)
  else none

/-- `stop[-\s]?loss[:\s]+(number)` (line 150). -/
def matchStopLossNum (s : List Char) : Option (List Char) :=
  if startsWithCI "stop".data s then optDashWS (matchKwNum "loss".data) (s.drop 4)
  else none

/-- `position[-\s]?size[:\s]+(number)` (line 169). -/
def matchPositionSizeNum (s : List Char) : Option (List Char) :=
  if startsWithCI "position".data s then optDashWS (matchKwNum "size".data) (s.drop 8)
  else none

/-- `risk[:\s]+([0-9]+\.?[0-9]*)%` (line 171): the capture must be
followed by a percent sign.  (A backtracked, shorter capture always ends
just before a digit or a dot, never before `%`, so the maximal capture
is faithful.) -/
def matchRiskNum (s : List Char) : Option (List Char) :=
  if startsWithCI "risk".data s then
    let r := s.drop 4
    let k := takeRun isColonWS r
    if k = 0 then none
    else
      match matchNumber (r.drop k) with
      | some (g, rest) =>
        match rest with
        | '%' :: _ => some g
        | _ => none
      | none => none
  else none

/-- `re.search`: try the at-position matcher at every position of the
text, leftmost match first. -/
def reSearch {α : Type} (m : List Char → Option α) : List Char → Option α
  | [] => m []
  | c :: cs =>
    match m (c :: cs) with
    | some g => some g
    | none => reSearch m cs

/-- A whole word with `\b` boundaries at the current position,
case-insensitively; `prev` is the character just before the position
(`none` at the start of the text). -/
def wordHere (w : List Char) (prev : Option Char) (s : List Char) : Bool :=
  (match prev with
   | none => true
   | some c => !isWordCh c) &&
  startsWithCI w s &&
  (match s.drop w.length with
   | [] => true
   | c :: _ => !isWordCh c)

/-- Does the word occur (with `\b` boundaries) anywhere in the text? -/
def hasWordFrom (w : List Char) : Option Char → List Char → Bool
  | prev, [] => wordHere w prev []
  | prev, c :: cs => wordHere w prev (c :: cs) || hasWordFrom w (some c) cs

/-- `re.search(r'\bsell\b|\bshort\b|\bbearish\b', text, IGNORECASE)` as
an existence test (lines 163-165). -/
def hasSellShortBearish (t : List Char) : Bool :=
  hasWordFrom "sell".data none t || hasWordFrom "short".data none t ||
    hasWordFrom "bearish".data none t

/-- The entry-price patterns in source order (lines 118-124). -/
def entry_patterns : List (List Char → Option (List Char)) :=
  [matchKwNum "entry".data, matchKwAtNum "enter".data, matchKwAtNum "buy".data,
   matchKwAtNum "sell".data, matchEntryPriceNum]

/-- The exit/target patterns in source order (lines 134-139). -/
def exit_patterns : List (List Char → Option (List Char)) :=
  [matchKwNum "exit".data, matchKwNum "target".data, matchTakeProfitNum,
   matchKwNum "tp".data]

/-- The stop-loss patterns in source order (lines 149-153). -/
def stop_patterns : List (List Char → Option (List Char)) :=
  [matchStopLossNum, matchKwNum "sl".data, matchKwNum "stop".data]

/-- The position-size patterns in source order (lines 168-172). -/
def size_patterns : List (List Char → Option (List Char)) :=
  [matchPositionSizeNum, matchKwNum "size".data, matchRiskNum]

/-- The `for pattern in patterns: ... break` loops: first pattern whose
search succeeds wins. -/
def firstMatch (pats : List (List Char → Option (List Char))) (t : List Char) :
    Option (List Char) :=
  pats.findSome? (fun p => reSearch p t)

/-- `RecommendationParser._extract_opportunity_from_text` (lines
114-195).  `if entry:` makes a `0.0` entry falsy (no opportunity);
`float(x) if x else None` makes `0.0` exit/stop values `None`;
`position_size` keeps the raw captured string; `recommendation` is the
first 500 characters of the section. -/
def extract_opportunity_from_text (pair : String) (t : List Char) : Option Opportunity :=
  let entry := (firstMatch entry_patterns t).map parseFloatQ
  let exit_price := (firstMatch exit_patterns t).map parseFloatQ
  let stop_loss := (firstMatch stop_patterns t).map parseFloatQ
  let direction := if hasSellShortBearish t then "SELL" else "BUY"
  let position_size := (firstMatch size_patterns t).map String.mk
  if truthyQ entry then
    some { pair := pair
           entry := entry.getD 0
           exit := if truthyQ exit_price then exit_price else none
           stop_loss := if truthyQ stop_loss then stop_loss else none
           direction := direction
           position_size := position_size
           recommendation := String.mk (t.take 500)
           source := "text_parsing" }
  else none

/-- One character of the section pattern built by
`pair.replace('/', '[/ ]')` (line 69): the slash position matches the
class `[/ ]`, letters match case-insensitively. -/
def pairPatCharMatches (pc c : Char) : Bool :=
  if pc = '/' then c == '/' || c == ' ' else eqCI pc c

/-- Match the pair pattern at the current position, returning the rest
of the text after the matched characters. -/
def matchPairPat : List Char → List Char → Option (List Char)
  | [], s => some s
  | _ :: _, [] => none
  | pc :: ps, c :: cs => if pairPatCharMatches pc c then matchPairPat ps cs else none

/-- The lookahead `(?=\n\n|\n[A-Z]{3}[/ ]|$)` of the section regex
(line 71).  Under `IGNORECASE`, `[A-Z]` also matches lower-case letters;
`$` without `MULTILINE` matches at the end of the text or just before a
final newline. -/
def sectionStop (s : List Char) : Bool :=
  (match s with
   | '\n' :: '\n' :: _ => true
   | '\n' :: a :: b :: c :: d :: _ =>
     isAlphaCh a && isAlphaCh b && isAlphaCh c && (d == '/' || d == ' ')
   | _ => false) ||
  (match s with
   | [] => true
   | ['\n'] => true
   | _ => false)

/-- The lazy `.*?` (with `DOTALL`): number of characters consumed until
the lookahead first holds. -/
def lazyExtendLen : List Char → Nat
  | [] => 0
  | c :: cs => if sectionStop (c :: cs) then 0 else lazyExtendLen cs + 1

/-- `re.search` for the section regex of one pair (lines 70-74):
leftmost occurrence of the pair pattern, then the lazy extension up to
the lookahead; the whole matched slice is the pair's section. -/
def findSection (pat : List Char) : List Char → Option (List Char)
  | [] => (matchPairPat pat []).map (fun _ => ([] : List Char))
  | c :: cs =>
    match matchPairPat pat (c :: cs) with
    | some rest => some ((c :: cs).take (pat.length + lazyExtendLen rest))
    | none => findSection pat cs

/-- `RecommendationParser._parse_text` (lines 63-82): for each catalog
pair in order, find its section and extract an opportunity from it;
collect the successes. -/
def parse_text (text : String) : List Opportunity :=
  currency_pairs.filterMap (fun pair =>
    (findSection pair.data text.data).bind (extract_opportunity_from_text pair))

/-- `RecommendationParser.parse_file` (lines 22-32).  The docstring
promises to parse a text or JSON analysis file, but the whole body is
`return self._parse_text(text)` where no name `text` is in scope:
Python raises `NameError` before anything is read or parsed, for every
input, and `_parse_json` (lines 34-61) is never called. -/
def parse_file (file_path : String) : Except String (List Opportunity) :=
  Except.error "NameError: name text is not defined"

/-- The fields of a structured record that
`RecommendationParser._extract_opportunity_from_dict` (lines 84-112)
consults, with string-valued and number-valued keys typed accordingly
(`none` = key absent). -/
structure RecDict where
  pair : Option String := none
  currency_pair : Option String := none
  symbol : Option String := none
  entry : Option ℚ := none
  entry_price : Option ℚ := none
  entryPrice : Option ℚ := none
  exit : Option ℚ := none
  exit_price : Option ℚ := none
  exitPrice : Option ℚ := none
  target : Option ℚ := none
  stop_loss : Option ℚ := none
  stopLoss : Option ℚ := none
  stop : Option ℚ := none
  direction : Option String := none
  type : Option String := none
  action : Option String := none
  position_size : Option String := none
  positionSize : Option String := none
  size : Option String := none
  recommendation : Option String := none
  reason : Option String := none
  analysis : Option String := none
  deriving DecidableEq, Repr

/-- Line 87: `data.get('pair') or data.get('currency_pair') or data.get('symbol')`. -/
def pairChain (r : RecDict) : Option String :=
  pyOrS r.pair (pyOrS r.currency_pair r.symbol)

/-- Line 88: the `entry` synonym chain. -/
def entryChain (r : RecDict) : Option ℚ :=
  pyOrQ r.entry (pyOrQ r.entry_price r.entryPrice)

/-- Line 89: the `exit` synonym chain. -/
def exitChain (r : RecDict) : Option ℚ :=
  pyOrQ r.exit (pyOrQ r.exit_price (pyOrQ r.exitPrice r.target))

/-- Line 90: the `stop_loss` synonym chain. -/
def stopChain (r : RecDict) : Option ℚ :=
  pyOrQ r.stop_loss (pyOrQ r.stopLoss r.stop)

/-- Line 91: `data.get('direction') or data.get('type') or
data.get('action', 'BUY').upper()`.  By Python precedence, `.upper()`
binds only to the `action` default term; values read from `direction`
or `type` are used verbatim. -/
def directionChain (r : RecDict) : String :=
  if truthyS r.direction then r.direction.getD ""
  else if truthyS r.type then r.type.getD ""
  else upperStr (r.action.getD "BUY")

/-- Line 92: the `position_size` synonym chain. -/
def sizeChain (r : RecDict) : Option String :=
  pyOrS r.position_size (pyOrS r.positionSize r.size)

/-- Line 93: `data.get('recommendation') or data.get('reason') or
data.get('analysis', '')`. -/
def recChain (r : RecDict) : String :=
  if truthyS r.recommendation then r.recommendation.getD ""
  else if truthyS r.reason then r.reason.getD ""
  else r.analysis.getD ""

/-- `RecommendationParser._extract_opportunity_from_dict` (lines
84-112): require a truthy pair and entry, normalize the pair, and build
the opportunity; the extracted direction is `BUY` exactly when the
resolved direction value is one of `BUY`, `LONG`, `GO LONG`. -/
def extract_opportunity_from_dict (r : RecDict) : Option Opportunity :=
  if truthyS (pairChain r) ∧ truthyQ (entryChain r) then
    match normalize_pair ((pairChain r).getD "") with
    | some p =>
      some { pair := p
             entry := (entryChain r).getD 0
             exit := if truthyQ (exitChain r) then exitChain r else none
             stop_loss := if truthyQ (stopChain r) then stopChain r else none
             direction := if (["BUY", "LONG", "GO LONG"] : List String).contains
               (directionChain r) then "BUY" else "SELL"
             position_size := sizeChain r
             recommendation := recChain r
             source := "structured_data" }
    | none => none
  else none

/-! ## Main orchestration (`main.py`) -/

/-- Step 6 of `TradeAlertSystem._run_full_analysis` (lines 184-194),
parameterized by the extraction function applied to the synthesis text.
(As written, line 187 calls `self.parser.parse_text`, a method that does
not exist on `RecommendationParser`; the `AttributeError` is caught by
the workflow handler at line 198.  The update below is the state logic
of lines 185-194 given the extraction result.)  On a nonempty result the
tracked set is replaced; on an empty result only a warning is logged and
the previous set is left unchanged. -/
def run_full_analysis_step6 (gemini_final : Option String)
    (parse : String → List Opportunity)
    (opportunities : List Opportunity) : List Opportunity :=
  if truthyS gemini_final then
    let new_opportunities := parse (gemini_final.getD "")
    if new_opportunities.isEmpty then opportunities else new_opportunities
  else opportunities

/-- Result of `AlertManager.send_entry_alert` as observed by the caller:
a returned boolean, or an exception. -/
inductive NotifyResult where
  | retBool (b : Bool)
  | raised
  deriving DecidableEq, Repr

/-- Loop body of `TradeAlertSystem._check_entry_points` (lines 208-237)
for one tracked opportunity: skip if already alerted; fetch the price
and skip when it is falsy; evaluate `check_entry_point` (which
re-reads the same cached rate); on a hit, call the notifier and record
the alert only when it returns `True`.  A notifier exception is caught
by the per-opportunity handler (lines 236-237), so no ledger write
happens. -/
def check_entry_points_step (feed : String → Option ℚ)
    (notify : Opportunity → ℚ → NotifyResult) (now : String)
    (st : AlertHistoryState) (opp : Opportunity) : AlertHistoryState :=
  if has_alerted st.history opp then st
  else
    match get_rate feed opp.pair with
    | none => st
    | some cp =>
      if cp = 0 then st
      else if check_entry_point feed opp.pair opp.entry opp.direction then
        match notify opp cp with
        | NotifyResult.retBool true => record_alert st opp cp now
        | NotifyResult.retBool false => st
        | NotifyResult.raised => st
      else st

/-- `TradeAlertSystem._check_entry_points` (lines 201-237): one
monitoring tick over the tracked opportunity list. -/
def check_entry_points (feed : String → Option ℚ)
    (notify : Opportunity → ℚ → NotifyResult) (now : String)
    (st : AlertHistoryState) (opps : List Opportunity) : AlertHistoryState :=
  opps.foldl (check_entry_points_step feed notify now) st

/-! ## Shared concrete inputs and helper lemmas -/

/-- The spec's end-to-end scenario text: an EUR/USD section with entry,
target and stop-loss fields and no sell/short/bearish keyword. -/
def scenarioText : String :=
  "EUR/USD outlook: strong momentum. Entry: 1.1000 Target: 1.1100 Stop Loss: 1.0950"

/-- A text that contains the scenario fragment, but inside a second
EUR/USD block: the first EUR/USD section (cut at the blank line) carries
a different entry price. -/
def twoSectionText : String :=
  "EUR/USD Entry: 2.0000\n\nEUR/USD momentum. Entry: 1.1000 Target: 1.1100 Stop Loss: 1.0950"

/-- A sample tracked opportunity. -/
def sampleOpp : Opportunity :=
  { pair := "EUR/USD", entry := mkRat 11 10, exit := none, stop_loss := none,
    direction := "BUY", position_size := none, recommendation := "sample", source := "text_parsing" }

/-- A second sample opportunity with a different ledger identity. -/
def sampleOpp2 : Opportunity :=
  { pair := "GBP/USD", entry := mkRat 5 4, exit := none, stop_loss := none,
    direction := "SELL", position_size := none, recommendation := "sample2", source := "text_parsing" }

/-- `get_rate_core` never returns a zero rate: every `some` branch is
guarded by the truthiness checks of the source (`rate if rate else
None`, `if rate_base and rate_quote`). -/
theorem get_rate_core_ne_zero {feed : String → Option ℚ} {b q : String} {c : ℚ}
    (h : get_rate_core feed b q = some c) : c ≠ 0 := by
  unfold get_rate_core at h
  split_ifs at h with hb hq
  · cases hfq : feed q with
    | none => rw [hfq] at h; simp at h
    | some r =>
      rw [hfq] at h
      dsimp only at h
      split_ifs at h with hr
      cases h; exact hr
  · cases hfb : feed b with
    | none => rw [hfb] at h; simp at h
    | some r =>
      rw [hfb] at h
      dsimp only at h
      split_ifs at h with hr
      cases h; exact one_div_ne_zero hr
  · cases hfb : feed b with
    | none => rw [hfb] at h; simp at h
    | some rb =>
      cases hfq : feed q with
      | none => rw [hfb, hfq] at h; simp at h
      | some rq =>
        rw [hfb, hfq] at h
        dsimp only at h
        split_ifs at h with hz
        cases h; exact div_ne_zero hz.2 hz.1

/-- `get_rate` never returns a zero rate. -/
theorem get_rate_ne_zero {feed : String → Option ℚ} {pair : String} {c : ℚ}
    (h : get_rate feed pair = some c) : c ≠ 0 := by
  unfold get_rate at h
  split at h
  · exact get_rate_core_ne_zero h
  · simp at h

/-- An opportunity extracted from a text section carries the pair it was
extracted for. -/
theorem extract_opportunity_from_text_pair {pair : String} {t : List Char}
    {o : Opportunity} (h : extract_opportunity_from_text pair t = some o) :
    o.pair = pair := by
  unfold extract_opportunity_from_text at h
  dsimp only at h
  split at h
  · rw [Option.some.injEq] at h
    rw [← h]
  · simp at h

/-! ## Claim theorems -/

/-- C1: the spec says `RecommendationParser.parse_file` auto-detects the
mode by attempting a JSON parse first, falling back to text, and returns
a (possibly empty) list for every string input rather than raising.  The
code instead evaluates the undefined name `text` and raises `NameError`
on every input, never attempting a JSON parse: the body contradicts the
method's own docstring ("Parse analysis file ... (text or JSON)") and
leaves `_parse_json` dead. -/
theorem parse_file_always_raises :
    parse_file "analysis.json" = Except.error "NameError: name text is not defined" ∧
    ∀ file_path : String, ∃ e, parse_file file_path = Except.error e :=
  ⟨rfl, fun _ => ⟨_, rfl⟩⟩

/-- C2 counterexample: a cycle whose synthesis text parses to zero
opportunities keeps the previous tracked set — it is not discarded as
the claim states. -/
theorem step6_zero_yield_retains :
    run_full_analysis_step6 (some "no opportunities today") (fun _ => []) [sampleOpp]
      = [sampleOpp] ∧
    [sampleOpp] ≠ ([] : List Opportunity) :=
  ⟨rfl, by decide⟩

/-- C2 (amended): on a successfully parsed synthesis text the tracked
set is wholly replaced when extraction yields at least one opportunity;
when extraction yields zero opportunities the previous set is retained
(with a warning), not discarded. -/
theorem step6_replace_nonempty_retain_empty (g : String) (hg : g ≠ "")
    (parse : String → List Opportunity) (prev : List Opportunity) :
    (parse g ≠ [] → run_full_analysis_step6 (some g) parse prev = parse g) ∧
    (parse g = [] → run_full_analysis_step6 (some g) parse prev = prev) := by
  have hgs : truthyS (some g) = true := by
    simp [truthyS]
    exact hg
  constructor
  · intro hne
    simp only [run_full_analysis_step6, hgs, if_true, Option.getD_some]
    rw [if_neg (by simpa [List.isEmpty_iff] using hne)]
  · intro he
    simp only [run_full_analysis_step6, hgs, if_true, Option.getD_some]
    rw [if_pos (by simpa [List.isEmpty_iff] using he)]

/-- C2 witness: the amended behavior at concrete inputs. -/
theorem step6_replace_nonempty_retain_empty_witness :
    run_full_analysis_step6 (some "synthesis") (fun _ => [sampleOpp]) [sampleOpp2]
      = [sampleOpp] ∧
    run_full_analysis_step6 (some "synthesis") (fun _ => []) [sampleOpp2]
      = [sampleOpp2] := by
  constructor
  · exact (step6_replace_nonempty_retain_empty "synthesis" (by decide)
      (fun _ => [sampleOpp]) [sampleOpp2]).1 (by decide)
  · exact (step6_replace_nonempty_retain_empty "synthesis" (by decide)
      (fun _ => []) [sampleOpp2]).2 rfl

/-- A feed whose USD rate is close enough to the example entry to hit. -/
def feedHit : String → Option ℚ :=
  fun s => if s = "USD" then some (mkRat 110105 100000) else none

/-- A feed whose USD rate is too far above the example entry to hit. -/
def feedMiss : String → Option ℚ :=
  fun s => if s = "USD" then some (mkRat 1102 1000) else none

/-- A feed returning the integer rate 2 for USD. -/
def feedTwo : String → Option ℚ :=
  fun s => if s = "USD" then some 2 else none

/-- The spec's cross-rate example feed: pivot/GBP = 0.80, pivot/JPY = 150. -/
def crossFeedEx : String → Option ℚ :=
  fun s => if s = "GBP" then some (mkRat 8 10) else if s = "JPY" then some 150 else none

/-- C3: for every pair, entry `e > 0`, direction BUY/SELL and fetched
current price `c`, the hit decision uses pip size 0.01 iff the pair
contains `JPY` (else 0.0001), tolerance
`max (tolerance_pips * pip, e * tolerance_percent / 100)`, and BUY hits
iff `c ≤ e + tol`, SELL iff `e - tol ≤ c`; moreover the spec's EUR/USD
example with defaults: rate 1.10105 hits, rate 1.10200 does not. -/
theorem check_entry_point_tolerance_band (feed : String → Option ℚ)
    (pair : String) (e c tp tpc : ℚ) (he : 0 < e)
    (hc : get_rate feed pair = some c) :
    (check_entry_point feed pair e "BUY" tp tpc = true ↔
      c ≤ e + max (tp * (if containsSub "JPY".data pair.data then 1/100 else 1/10000))
        (e * (tpc / 100))) ∧
    (check_entry_point feed pair e "SELL" tp tpc = true ↔
      e - max (tp * (if containsSub "JPY".data pair.data then 1/100 else 1/10000))
        (e * (tpc / 100)) ≤ c) ∧
    check_entry_point feedHit "EUR/USD" (mkRat 11 10) "BUY" = true ∧
    check_entry_point feedMiss "EUR/USD" (mkRat 11 10) "BUY" = false := by
  have hcne : c ≠ 0 := get_rate_ne_zero hc
  refine ⟨?_, ?_, ?_, ?_⟩
  · unfold check_entry_point entryHitDecision
    rw [hc]
    dsimp only
    rw [if_neg hcne, if_pos rfl]
    exact decide_eq_true_iff
  · unfold check_entry_point entryHitDecision
    rw [hc]
    dsimp only
    rw [if_neg hcne, if_neg (by decide : ¬("SELL" = "BUY"))]
    exact decide_eq_true_iff
  · unfold check_entry_point entryHitDecision
    rw [(by decide : get_rate feedHit "EUR/USD" = some (mkRat 110105 100000))]
    dsimp only
    rw [if_neg (by decide : ¬(mkRat 110105 100000 = (0 : ℚ))), if_pos rfl,
      if_neg (by decide : ¬(containsSub "JPY".data "EUR/USD".data = true))]
    refine decide_eq_true ?_
    rw [Rat.mkRat_eq_div, Rat.mkRat_eq_div]
    rw [max_def]
    norm_num
  · unfold check_entry_point entryHitDecision
    rw [(by decide : get_rate feedMiss "EUR/USD" = some (mkRat 1102 1000))]
    dsimp only
    rw [if_neg (by decide : ¬(mkRat 1102 1000 = (0 : ℚ))), if_pos rfl,
      if_neg (by decide : ¬(containsSub "JPY".data "EUR/USD".data = true))]
    refine decide_eq_false ?_
    rw [Rat.mkRat_eq_div, Rat.mkRat_eq_div]
    rw [max_def]
    norm_num

/-- C3 witness: the tolerance-band characterization applied at a
concrete feed, pair, entry and price. -/
theorem check_entry_point_tolerance_band_witness :
    (0 : ℚ) < 2 ∧ get_rate feedTwo "EUR/USD" = some 2 ∧
    (check_entry_point feedTwo "EUR/USD" 2 "BUY" 3 (1/2) = true ↔
      (2 : ℚ) ≤ 2 + max (3 * (if containsSub "JPY".data "EUR/USD".data then 1/100 else 1/10000))
        (2 * ((1/2) / 100))) := by
  refine ⟨by decide, by decide, ?_⟩
  exact (check_entry_point_tolerance_band feedTwo "EUR/USD" 2 2 3 (1/2)
    (by decide) (by decide)).1

/-- C4: when neither leg of a well-formed pair is the pivot `EUR` and
the feed yields truthy rates `rb`, `rq` for the two legs, `get_rate`
returns `rq / rb`; an unavailable leg yields `None`; and the spec's
example pivot/GBP = 0.80, pivot/JPY = 150 gives rate(GBP/JPY) = 187.5. -/
theorem get_rate_cross (feed : String → Option ℚ) (pair b q : String)
    (hsplit : pySplitSlash pair = [b, q]) (hb : b ≠ "EUR") (hq : q ≠ "EUR") :
    (∀ rb rq, feed b = some rb → feed q = some rq → rb ≠ 0 → rq ≠ 0 →
      get_rate feed pair = some (rq / rb)) ∧
    (feed b = none → get_rate feed pair = none) ∧
    (feed q = none → get_rate feed pair = none) ∧
    get_rate crossFeedEx "GBP/JPY" = some (mkRat 375 2) := by
  have hrw : ∀ x : Option ℚ, get_rate feed pair = get_rate_core feed b q := by
    intro _
    unfold get_rate
    rw [hsplit]
  refine ⟨?_, ?_, ?_, ?_⟩
  · intro rb rq hfb hfq hrb hrq
    rw [hrw none]
    unfold get_rate_core
    rw [if_neg hb, if_neg hq, hfb, hfq]
    dsimp only
    rw [if_pos ⟨hrb, hrq⟩]
  · intro hfb
    rw [hrw none]
    unfold get_rate_core
    rw [if_neg hb, if_neg hq, hfb]
  · intro hfq
    rw [hrw none]
    unfold get_rate_core
    rw [if_neg hb, if_neg hq, hfq]
    cases hfb : feed b <;> rfl
  · have h1 : get_rate crossFeedEx "GBP/JPY" = some ((150 : ℚ) / mkRat 8 10) := rfl
    rw [h1]
    congr 1
    rw [Rat.mkRat_eq_div, Rat.mkRat_eq_div]
    norm_num

/-- C4 witness: the cross-rate law and the unavailability law at
concrete feeds. -/
theorem get_rate_cross_witness :
    get_rate crossFeedEx "GBP/JPY" = some ((150 : ℚ) / mkRat 8 10) ∧
    get_rate (fun _ => none) "GBP/JPY" = none := by
  constructor
  · exact (get_rate_cross crossFeedEx "GBP/JPY" "GBP" "JPY" (by decide) (by decide)
      (by decide)).1 (mkRat 8 10) 150 rfl rfl (by decide) (by decide)
  · exact (get_rate_cross (fun _ => none) "GBP/JPY" "GBP" "JPY" (by decide) (by decide)
      (by decide)).2.1 rfl

/-- C6: the alert ledger key is a function of only `pair`, `direction`
and the entry price rounded at five fractional digits: two opportunities
agreeing on those three (with positive entries, per the data-model
invariant) get equal keys whatever their other fields. -/
theorem alert_key_identity (o1 o2 : Opportunity)
    (hpair : o1.pair = o2.pair) (hdir : o1.direction = o2.direction)
    (h1 : 0 < o1.entry) (h2 : 0 < o2.entry)
    (hround : round5HalfEven o1.entry = round5HalfEven o2.entry) :
    create_alert_key o1 = create_alert_key o2 := by
  unfold create_alert_key format5
  dsimp only
  rw [hpair, hdir, hround, if_neg (lt_asymm h1), if_neg (lt_asymm h2)]

/-- An opportunity sharing `sampleOpp`'s identity fields but a slightly
different entry (equal after rounding) and different free-text fields. -/
def sampleOppKey1 : Opportunity :=
  { pair := "EUR/USD", entry := mkRat 11000001 10000000, exit := none, stop_loss := none,
    direction := "BUY", position_size := none, recommendation := "alpha rationale",
    source := "text_parsing" }

/-- As `sampleOppKey1` with another nearby entry, a position size and
other rationale. -/
def sampleOppKey2 : Opportunity :=
  { pair := "EUR/USD", entry := mkRat 110000011 100000000, exit := some (mkRat 111 100),
    stop_loss := none, direction := "BUY", position_size := some "2",
    recommendation := "beta rationale", source := "structured_data" }

/-- C6 witness: two opportunities with distinct entries and free-text
fields, equal after rounding, get the same key. -/
theorem alert_key_identity_witness :
    sampleOppKey1.entry ≠ sampleOppKey2.entry ∧
    round5HalfEven sampleOppKey1.entry = round5HalfEven sampleOppKey2.entry ∧
    create_alert_key sampleOppKey1 = create_alert_key sampleOppKey2 :=
  ⟨by decide, by decide,
    alert_key_identity sampleOppKey1 sampleOppKey2 rfl rfl (by decide) (by decide) (by decide)⟩

/-- C7: after `record_alert`, `has_alerted` answers `True` for the
recorded opportunity — also on a fresh ledger state reloaded from the
persisted file — and `False` for any opportunity whose derived key
differs from every recorded key. -/
theorem ledger_round_trip (s : AlertHistoryState) (o : Opportunity) (p : ℚ) (now : String) :
    has_alerted (record_alert s o p now).history o = true ∧
    has_alerted (loadState (record_alert s o p now).file).history o = true ∧
    ∀ o2 : Opportunity,
      (∀ e ∈ (record_alert s o p now).history, e.key ≠ create_alert_key o2) →
      has_alerted (record_alert s o p now).history o2 = false := by
  refine ⟨?_, ?_, ?_⟩
  · simp [has_alerted, record_alert, List.any_append]
  · simp [has_alerted, record_alert, loadState, load_history, List.any_append]
  · intro o2 hk
    unfold has_alerted
    rw [List.any_eq_false]
    intro e he
    simp only [Bool.and_eq_true, beq_iff_eq, not_and]
    intro hkey
    exact absurd hkey (hk e he)

/-- C7 witness: record on an empty ledger, then check the recorded and a
differently-keyed opportunity, including through a reload of the
persisted file. -/
theorem ledger_round_trip_witness :
    has_alerted (record_alert (loadState none) sampleOpp (mkRat 3 2) "2026-10-12").history
      sampleOpp = true ∧
    has_alerted
      (loadState (record_alert (loadState none) sampleOpp (mkRat 3 2) "2026-10-12").file).history
      sampleOpp = true ∧
    has_alerted (record_alert (loadState none) sampleOpp (mkRat 3 2) "2026-10-12").history
      sampleOpp2 = false := by
  have h := ledger_round_trip (loadState none) sampleOpp (mkRat 3 2) "2026-10-12"
  exact ⟨h.1, h.2.1, h.2.2 sampleOpp2 (by decide)⟩

/-- C8: in a monitoring tick, the per-opportunity step either leaves the
ledger state unchanged or the notifier returned `True` at the fetched
price and the step is exactly the ledger write; in particular a notifier
exception or a `False` return leaves the state unchanged, so the
opportunity is re-evaluated on the next tick. -/
theorem ledger_write_only_on_notifier_success (feed : String → Option ℚ)
    (notify : Opportunity → ℚ → NotifyResult) (now : String)
    (st : AlertHistoryState) (opp : Opportunity) :
    (check_entry_points_step feed notify now st opp = st ∨
      ∃ cp, get_rate feed opp.pair = some cp ∧
        notify opp cp = NotifyResult.retBool true ∧
        check_entry_points_step feed notify now st opp = record_alert st opp cp now) ∧
    (∀ cp, get_rate feed opp.pair = some cp →
      notify opp cp ≠ NotifyResult.retBool true →
      check_entry_points_step feed notify now st opp = st) := by
  constructor
  · unfold check_entry_points_step
    split
    · exact Or.inl rfl
    · cases hr : get_rate feed opp.pair with
      | none => exact Or.inl rfl
      | some cp =>
        dsimp only
        split
        · exact Or.inl rfl
        · split
          · cases hn : notify opp cp with
            | retBool b =>
              cases b with
              | true => exact Or.inr ⟨cp, rfl, hn, rfl⟩
              | false => exact Or.inl rfl
            | raised => exact Or.inl rfl
          · exact Or.inl rfl
  · intro cp hcp hne
    unfold check_entry_points_step
    split
    · rfl
    · rw [hcp]
      dsimp only
      split
      · rfl
      · split
        · cases hn : notify opp cp with
          | retBool b =>
            cases b with
            | true => exact absurd hn hne
            | false => rfl
          | raised => rfl
        · rfl

/-- C8 witness: with a notifier that raises, the step leaves the ledger
unchanged at a concrete hit configuration. -/
theorem ledger_write_only_on_notifier_success_witness :
    check_entry_points_step feedTwo (fun _ _ => NotifyResult.raised) "2026-10-12"
      (loadState none) sampleOpp = loadState none := by
  exact (ledger_write_only_on_notifier_success feedTwo (fun _ _ => NotifyResult.raised)
    "2026-10-12" (loadState none) sampleOpp).2 2 (by decide) (by decide)

/-- C10: the hit decision is `False` on an unavailable or zero current
price; `get_rate` never yields a zero rate; a leg fetched as exactly
`0.0` is treated as absent in each of the three branches (so no
inversion or cross-rate division on it happens); and `check_entry_point`
is `False` whenever the rate lookup fails. -/
theorem rate_lookup_zero_safe :
    (∀ pair e d tp tpc, entryHitDecision none pair e d tp tpc = false) ∧
    (∀ pair e d tp tpc, entryHitDecision (some 0) pair e d tp tpc = false) ∧
    (∀ feed pair c, get_rate feed pair = some c → c ≠ 0) ∧
    (∀ feed b q, b ≠ "EUR" → q ≠ "EUR" →
      (feed b = some 0 ∨ feed q = some 0) → get_rate_core feed b q = none) ∧
    (∀ feed q, feed q = some 0 → get_rate_core feed "EUR" q = none) ∧
    (∀ feed b, b ≠ "EUR" → feed b = some 0 → get_rate_core feed b "EUR" = none) ∧
    (∀ feed pair e d tp tpc, get_rate feed pair = none →
      check_entry_point feed pair e d tp tpc = false) := by
  refine ⟨fun _ _ _ _ _ => rfl, ?_, fun _ _ _ h => get_rate_ne_zero h, ?_, ?_, ?_, ?_⟩
  · intro pair e d tp tpc
    unfold entryHitDecision
    dsimp only
    rw [if_pos rfl]
  · intro feed b q hb hq hor
    unfold get_rate_core
    rw [if_neg hb, if_neg hq]
    rcases hor with h0 | h0
    · rw [h0]
      cases hfq : feed q with
      | none => rfl
      | some rq =>
        dsimp only
        rw [if_neg (by simp)]
    · rw [h0]
      cases hfb : feed b with
      | none => rfl
      | some rb =>
        dsimp only
        rw [if_neg (by simp)]
  · intro feed q h0
    unfold get_rate_core
    rw [if_pos rfl, h0]
    dsimp only
    rw [if_neg (by simp)]
  · intro feed b hb h0
    unfold get_rate_core
    rw [if_neg hb, if_pos rfl, h0]
    dsimp only
    rw [if_neg (by simp)]
  · intro feed pair e d tp tpc h
    unfold check_entry_point
    rw [h]
    rfl

/-- C10 witness: the zero-safety laws at concrete inputs. -/
theorem rate_lookup_zero_safe_witness :
    entryHitDecision (some 0) "EUR/USD" 1 "BUY" 10 (1/10) = false ∧
    get_rate_core (fun _ => some 0) "GBP" "JPY" = none ∧
    get_rate_core (fun _ => some 0) "EUR" "USD" = none ∧
    get_rate_core (fun _ => some 0) "USD" "EUR" = none ∧
    check_entry_point (fun _ => none) "EUR/USD" 1 "BUY" 10 (1/10) = false := by
  have h := rate_lookup_zero_safe
  refine ⟨h.2.1 "EUR/USD" 1 "BUY" 10 (1/10), ?_, ?_, ?_, ?_⟩
  · exact h.2.2.2.1 (fun _ => some 0) "GBP" "JPY" (by decide) (by decide) (Or.inl rfl)
  · exact h.2.2.2.2.1 (fun _ => some 0) "USD" rfl
  · exact h.2.2.2.2.2.1 (fun _ => some 0) "USD" (by decide) rfl
  · exact h.2.2.2.2.2.2 (fun _ => none) "EUR/USD" 1 "BUY" 10 (1/10) rfl

/-- C9: for a structured record with a resolvable pair and truthy
numeric entry, whenever the `direction`/`type`/`action` chain resolves
to a value outside {`BUY`, `LONG`, `GO LONG`} — in particular the
lowercase string `buy` read verbatim from `direction` or `type`, since
`.upper()` applies only to the `action` default term — the extracted
opportunity has direction `SELL`. -/
theorem dict_direction_not_uppercased (r : RecDict) (d : String)
    (hdir : directionChain r = d)
    (hd : (["BUY", "LONG", "GO LONG"] : List String).contains d = false)
    (hpair : truthyS (pairChain r) = true) (hentry : truthyQ (entryChain r) = true)
    (p : String) (hnorm : normalize_pair ((pairChain r).getD "") = some p) :
    ∃ o, extract_opportunity_from_dict r = some o ∧
      o.direction = "SELL" ∧ o.pair = p := by
  unfold extract_opportunity_from_dict
  rw [if_pos ⟨hpair, hentry⟩, hnorm]
  dsimp only
  refine ⟨_, rfl, ?_, rfl⟩
  dsimp only
  rw [hdir, hd]
  rfl

/-- C9 witness: a record whose `direction` key holds the lowercase
string `buy` is extracted with direction `SELL`. -/
theorem dict_direction_not_uppercased_witness :
    ∃ o, extract_opportunity_from_dict
      { pair := some "EUR/USD", entry := some (mkRat 11 10), direction := some "buy" }
      = some o ∧ o.direction = "SELL" ∧ o.pair = "EUR/USD" := by
  exact dict_direction_not_uppercased
    { pair := some "EUR/USD", entry := some (mkRat 11 10), direction := some "buy" }
    "buy" (by decide) (by decide) (by decide) (by decide) "EUR/USD" (by decide)

/-- The opportunity the spec's scenario promises: EUR/USD, entry 1.1000,
exit 1.1100, stop 1.0950, direction BUY, no size, with the given
section text as rationale. -/
def scenarioOpp (rtext : String) : Opportunity :=
  { pair := "EUR/USD", entry := mkRat 11 10, exit := some (mkRat 111 100),
    stop_loss := some (mkRat 219 200), direction := "BUY", position_size := none,
    recommendation := rtext, source := "text_parsing" }

/-- Catalog pairs other than `EUR/USD` contribute nothing to the
`EUR/USD`-filtered extraction result. -/
theorem filter_other_pairs_nil (t : String) (l : List String)
    (hl : "EUR/USD" ∉ l) :
    ((l.filterMap (fun pair => (findSection pair.data t.data).bind
      (extract_opportunity_from_text pair))).filter
        (fun o => o.pair == "EUR/USD")) = [] := by
  induction l with
  | nil => rfl
  | cons phead ptail ih =>
    have hne : phead ≠ "EUR/USD" := fun h => hl (by rw [h]; exact List.mem_cons_self _ _)
    have htail : "EUR/USD" ∉ ptail := fun h => hl (List.mem_cons_of_mem _ h)
    rw [List.filterMap_cons]
    cases hf : (findSection phead.data t.data).bind (extract_opportunity_from_text phead) with
    | none => exact ih htail
    | some o =>
      have hop : o.pair = phead := by
        rcases Option.bind_eq_some.mp hf with ⟨sec, _, hext⟩
        exact extract_opportunity_from_text_pair hext
      rw [List.filter_cons, if_neg (by simp [hop, hne])]
      exact ih htail

theorem parse_text_scenario (t : String) (sec : List Char)
    (hsec : findSection "EUR/USD".data t.data = some sec)
    (hentry : firstMatch entry_patterns sec = some "1.1000".data)
    (hexit : firstMatch exit_patterns sec = some "1.1100".data)
    (hstop : firstMatch stop_patterns sec = some "1.0950".data)
    (hsize : firstMatch size_patterns sec = none)
    (hdir : hasSellShortBearish sec = false) :
    (parse_text t).filter (fun o => o.pair == "EUR/USD") =
      [scenarioOpp (String.mk (sec.take 500))] := by
  have hext : extract_opportunity_from_text "EUR/USD" sec =
      some (scenarioOpp (String.mk (sec.take 500))) := by
    unfold extract_opportunity_from_text scenarioOpp
    rw [hentry, hexit, hstop, hsize, hdir]
    dsimp only
    rw [(by decide : Option.map parseFloatQ (some "1.1000".data) = some (mkRat 11 10)),
        (by decide : Option.map parseFloatQ (some "1.1100".data) = some (mkRat 111 100)),
        (by decide : Option.map parseFloatQ (some "1.0950".data) = some (mkRat 219 200))]
    rw [if_pos (by decide : truthyQ (some (mkRat 11 10)) = true)]
    rw [if_pos (by decide : truthyQ (some (mkRat 111 100)) = true)]
    rw [if_pos (by decide : truthyQ (some (mkRat 219 200)) = true)]
    rfl
  have hfeur : (findSection "EUR/USD".data t.data).bind
      (extract_opportunity_from_text "EUR/USD") =
      some (scenarioOpp (String.mk (sec.take 500))) := by
    rw [hsec]
    exact hext
  have hbeq : ((scenarioOpp (String.mk (sec.take 500))).pair == "EUR/USD") = true := rfl
  unfold parse_text currency_pairs
  rw [List.filterMap_cons, hfeur, List.filter_cons, if_pos hbeq]
  rw [filter_other_pairs_nil t _ (by decide)]

/-- C5 witness: the amended scenario discharged at the concrete scenario
text, whose EUR/USD section is the whole text. -/
theorem parse_text_scenario_witness :
    (parse_text scenarioText).filter (fun o => o.pair == "EUR/USD") =
      [scenarioOpp (String.mk (scenarioText.data.take 500))] :=
  parse_text_scenario scenarioText scenarioText.data (by decide) (by decide)
    (by decide) (by decide) (by decide) (by decide)

/-- C5 counterexample: `twoSectionText` contains the claim's quoted
fragment — `EUR/USD`, then `Entry: 1.1000 Target: 1.1100 Stop Loss:
1.0950` further on — and no sell/short/bearish word, yet text-mode
extraction returns the EUR/USD opportunity with entry `2.0` taken from
the first EUR/USD section (cut at the blank line), not `1.1000`: mere
containment of the fragment does not determine the extraction. -/
theorem parse_text_fragment_not_sufficient :
    containsSub "EUR/USD".data twoSectionText.data = true ∧
    containsSub "Entry: 1.1000 Target: 1.1100 Stop Loss: 1.0950".data
      twoSectionText.data = true ∧
    hasSellShortBearish twoSectionText.data = false ∧
    parse_text twoSectionText =
      [{ pair := "EUR/USD", entry := 2, exit := none, stop_loss := none,
         direction := "BUY", position_size := none,
         recommendation := "EUR/USD Entry: 2.0000", source := "text_parsing" }] ∧
    (2 : ℚ) ≠ mkRat 11 10 :=
  ⟨by decide, by decide, by decide, by decide, by decide⟩

end TradeAlerts
